import Mathlib

/-!
Shallow embedding of the core validation logic of the verkehrsplanung
backend (src/index.js, primary implementation): the rule catalog, the rule
merger `buildRules`, and the width validator `validateDesignWithStandards`.

Widths are embedded as rationals (the JS constants and arithmetic here are
exact decimal fractions).  A JS rule object is a partial map from rule keys
to widths; object spread and field assignment are embedded explicitly.
Raw request fields are coerced at the boundary (`toNumber`/`toBool` in the
source, spec §4.3); the validator is embedded over the already-coerced
values, with the JS falsy test `!x` on a coerced number embedded as `x = 0`
(coercion never produces NaN: non-finite parses fall back to 0).
-/

namespace Verkehrsplanung

/-- Keys of the JS rule objects (BASE_RULES and the standard overlays,
src/index.js lines 37-71). -/
inductive RuleKey where
  | sidewalk_min_m
  | sidewalk_target_m
  | lane_min_m
  | lane_regular_m
  | cycle_min_m
  | parking_parallel_min_m
  | parking_schraeg_min_m
  | parking_quer_min_m
  | cycle_schutz_min_m
  | cycle_radfahr_min_m
  | cycle_baulich_min_m
deriving DecidableEq, Fintype

/-- A JS rule object: a partial map from rule keys to widths in meters. -/
abbrev RuleObj := RuleKey → Option ℚ

/-- BASE_RULES (src/index.js lines 37-46). -/
def BASE_RULES : RuleObj := fun k =>
  match k with
  | .sidewalk_min_m => some 1.5
  | .sidewalk_target_m => some 1.8
  | .lane_min_m => some 2.75
  | .lane_regular_m => some 3.25
  | .cycle_min_m => some 1.5
  | .parking_parallel_min_m => some 2
  | .parking_schraeg_min_m => some 2.5
  | .parking_quer_min_m => some 5
  | _ => none

/-- RAST_RULES (src/index.js lines 48-55). -/
def RAST_RULES : RuleObj := fun k =>
  match k with
  | .sidewalk_min_m => some 1.8
  | .lane_min_m => some 2.75
  | .lane_regular_m => some 3.25
  | .parking_parallel_min_m => some 2
  | .parking_schraeg_min_m => some 2.5
  | .parking_quer_min_m => some 5
  | _ => none

/-- ERA_RULES (src/index.js lines 57-61). -/
def ERA_RULES : RuleObj := fun k =>
  match k with
  | .cycle_schutz_min_m => some 1.5
  | .cycle_radfahr_min_m => some 1.85
  | .cycle_baulich_min_m => some 2
  | _ => none

/-- EFA_RULES (src/index.js lines 63-66). -/
def EFA_RULES : RuleObj := fun k =>
  match k with
  | .sidewalk_min_m => some 1.8
  | .sidewalk_target_m => some 2.5
  | _ => none

/-- STVO_RULES (src/index.js lines 68-71). -/
def STVO_RULES : RuleObj := fun k =>
  match k with
  | .lane_min_m => some 2.75
  | .lane_regular_m => some 3.25
  | _ => none

/-- JS object spread `{ ...base, ...ov }`: keys of `ov` win. -/
def spread (base ov : RuleObj) : RuleObj := fun k =>
  match ov k with
  | some v => some v
  | none => base k

/-- JS field read `rules.k` on a rule object (every read in the source hits
a populated key; a missing key would be `undefined` in JS, embedded as the
default 0). -/
def getRule (r : RuleObj) (k : RuleKey) : ℚ := (r k).getD 0

/-- JS field assignment `rules.k = v`. -/
def setRule (r : RuleObj) (k : RuleKey) (v : ℚ) : RuleObj := fun k2 =>
  if k2 = k then some v else r k2

/-- The four standard-selection flags built by the route handler
(src/index.js lines 261-266). -/
structure StandardSelection where
  applyRast : Bool
  applyEra : Bool
  applyEfa : Bool
  applyStvo : Bool
deriving DecidableEq

/-- buildRules (src/index.js lines 74-98): overlay RASt and EFA rule sets,
take maxima for the StVO lane widths, and always (re-)populate the three
cycle keys, from ERA_RULES when ERA is selected and from the literal
fallbacks 1.5 / 1.85 / 2.0 otherwise. -/
def buildRules (standards : StandardSelection) : RuleObj :=
  let rules0 := BASE_RULES
  let rules1 := if standards.applyRast then spread rules0 RAST_RULES else rules0
  let rules2 := if standards.applyEfa then spread rules1 EFA_RULES else rules1
  let rules3 :=
    if standards.applyStvo then
      let a := setRule rules2 .lane_min_m
        (max (getRule rules2 .lane_min_m) (getRule STVO_RULES .lane_min_m))
      setRule a .lane_regular_m
        (max (getRule a .lane_regular_m) (getRule STVO_RULES .lane_regular_m))
    else rules2
  if standards.applyEra then
    setRule (setRule (setRule rules3 .cycle_schutz_min_m
      (getRule ERA_RULES .cycle_schutz_min_m))
      .cycle_radfahr_min_m (getRule ERA_RULES .cycle_radfahr_min_m))
      .cycle_baulich_min_m (getRule ERA_RULES .cycle_baulich_min_m)
  else
    setRule (setRule (setRule rules3 .cycle_schutz_min_m 1.5)
      .cycle_radfahr_min_m 1.85)
      .cycle_baulich_min_m 2

/-- The empty standard selection. -/
def selNone : StandardSelection := ⟨false, false, false, false⟩

/-- Claim C3: selecting the regulatory lane standard (StVO) yields
lane_min and lane_regular at least the baseline values, and at least the
values obtained from the same selection without StVO; selecting it never
decreases either value. -/
theorem stvo_monotone_widening : ∀ s : StandardSelection,
    getRule BASE_RULES RuleKey.lane_min_m ≤
      getRule (buildRules { s with applyStvo := true }) RuleKey.lane_min_m ∧
    getRule BASE_RULES RuleKey.lane_regular_m ≤
      getRule (buildRules { s with applyStvo := true }) RuleKey.lane_regular_m ∧
    getRule (buildRules s) RuleKey.lane_min_m ≤
      getRule (buildRules { s with applyStvo := true }) RuleKey.lane_min_m ∧
    getRule (buildRules s) RuleKey.lane_regular_m ≤
      getRule (buildRules { s with applyStvo := true }) RuleKey.lane_regular_m := by
  rintro ⟨a, b, c, d⟩
  cases a <;> cases b <;> cases c <;> cases d <;>
    simp [buildRules, spread, setRule, getRule, BASE_RULES, RAST_RULES,
      ERA_RULES, EFA_RULES, STVO_RULES]

/-- Claim C4: the rule merger is a deterministic pure function of the
StandardSelection: two selections that agree on all four flags produce
effective rule tables that agree on every key. -/
theorem buildRules_deterministic (s t : StandardSelection)
    (hRast : s.applyRast = t.applyRast) (hEra : s.applyEra = t.applyEra)
    (hEfa : s.applyEfa = t.applyEfa) (hStvo : s.applyStvo = t.applyStvo) :
    ∀ k : RuleKey, buildRules s k = buildRules t k := by
  obtain ⟨a, b, c, d⟩ := s
  obtain ⟨a2, b2, c2, d2⟩ := t
  simp only at hRast hEra hEfa hStvo
  subst hRast hEra hEfa hStvo
  intro k
  rfl

/-- Witness for C4 at a concrete selection and key. -/
theorem buildRules_deterministic_witness :
    buildRules ⟨true, false, true, false⟩ RuleKey.lane_min_m =
      buildRules ⟨true, false, true, false⟩ RuleKey.lane_min_m :=
  buildRules_deterministic ⟨true, false, true, false⟩ ⟨true, false, true, false⟩
    rfl rfl rfl rfl RuleKey.lane_min_m

/-- Claim C5: every key populated in the baseline table is populated in
every effective table, and the three cycle keys are always populated,
whether or not ERA is selected. -/
theorem buildRules_preserves_keys : ∀ (s : StandardSelection) (k : RuleKey),
    ((BASE_RULES k).isSome = true → ((buildRules s) k).isSome = true) ∧
    ((buildRules s) RuleKey.cycle_schutz_min_m).isSome = true ∧
    ((buildRules s) RuleKey.cycle_radfahr_min_m).isSome = true ∧
    ((buildRules s) RuleKey.cycle_baulich_min_m).isSome = true := by
  rintro ⟨a, b, c, d⟩ k
  cases a <;> cases b <;> cases c <;> cases d <;> cases k <;>
    simp [buildRules, spread, setRule, getRule, BASE_RULES, RAST_RULES,
      ERA_RULES, EFA_RULES, STVO_RULES]

/-- Witness for C5: the baseline sidewalk minimum key is populated, hence
populated under the empty selection too. -/
theorem buildRules_preserves_keys_witness :
    ((buildRules selNone) RuleKey.sidewalk_min_m).isSome = true :=
  (buildRules_preserves_keys selNone RuleKey.sidewalk_min_m).1
    (by simp [BASE_RULES])

/-- Claim C9: in the primary implementation the StVO and ERA flags never
change the effective rule table: the StVO maxima and the ERA cycle values
coincide with what the other branches produce. -/
theorem stvo_era_no_effect : ∀ (s : StandardSelection) (k : RuleKey),
    buildRules s k = buildRules ⟨s.applyRast, false, s.applyEfa, false⟩ k := by
  rintro ⟨a, b, c, d⟩ k
  cases a <;> cases b <;> cases c <;> cases d <;> cases k <;>
    simp [buildRules, spread, setRule, getRule, BASE_RULES, RAST_RULES,
      ERA_RULES, EFA_RULES, STVO_RULES]

/-- The request geometry after boundary coercion (src/index.js lines
110-122): numeric fields via toNumber (non-finite parses fall back to 0),
flags via toBool, enum-like fields lower-cased strings. -/
structure CrossSectionInput where
  gesamtbreite : ℚ
  gehwegLinks : ℚ
  gehwegRechts : ℚ
  fahrstreifen : ℚ
  busverkehr : Bool
  radverkehrGewuenscht : Bool
  radverkehrArt : String
  radverkehrFuehrung : String
  parkstaendeGewuenscht : Bool
  parkart : String
deriving DecidableEq

/-- How a number is interpolated into a message: plain template
interpolation, or through .toFixed(2). -/
inductive NumFmt where
  | raw
  | fixed2
deriving DecidableEq

/-- One piece of a message template: literal text, or an embedded number
together with the rendering applied to it. -/
inductive MsgPart where
  | text : String → MsgPart
  | num : ℚ → NumFmt → MsgPart
deriving DecidableEq

/-- A violation as pushed by addError (src/index.js lines 29-31): a field
tag plus a message. -/
structure Violation where
  field : String
  message : List MsgPart
deriving DecidableEq

/-- Missing-total-width violation (src/index.js line 127). -/
def missingTotalWidth : Violation :=
  ⟨"gesamtbreite", [.text "Bitte geben Sie die Gesamtbreite des Straßenraums an."]⟩

/-- Missing-lane-count violation (src/index.js line 130). -/
def missingLanes : Violation :=
  ⟨"fahrstreifen", [.text "Bitte geben Sie die Anzahl der Fahrstreifen an."]⟩

/-- Missing-left-sidewalk violation (src/index.js line 133). -/
def missingSidewalkLeft : Violation :=
  ⟨"gehwegLinks", [.text "Bitte geben Sie die Breite des linken Gehwegs an."]⟩

/-- Missing-right-sidewalk violation (src/index.js line 136). -/
def missingSidewalkRight : Violation :=
  ⟨"gehwegRechts", [.text "Bitte geben Sie die Breite des rechten Gehwegs an."]⟩

/-- Narrow-left-sidewalk violation (src/index.js lines 145-151); both
numbers are interpolated plainly. -/
def sidewalkLeftViolation (w minW : ℚ) : Violation :=
  ⟨"gehwegLinks",
   [.text "Linker Gehweg ist mit ", .num w .raw,
    .text " m schmaler als die Mindestbreite von ", .num minW .raw,
    .text " m."]⟩

/-- Narrow-right-sidewalk violation (src/index.js lines 153-159). -/
def sidewalkRightViolation (w minW : ℚ) : Violation :=
  ⟨"gehwegRechts",
   [.text "Rechter Gehweg ist mit ", .num w .raw,
    .text " m schmaler als die Mindestbreite von ", .num minW .raw,
    .text " m."]⟩

/-- Aggregate-width violation (src/index.js lines 198-206); both numbers go
through .toFixed(2). -/
def aggregateViolation (required total : ℚ) : Violation :=
  ⟨"gesamtbreite",
   [.text "Die gewünschte Aufteilung benötigt mindestens ", .num required .fixed2,
    .text " m, verfügbar sind aber nur ", .num total .fixed2,
    .text " m."]⟩

/-- Narrow-lane violation (src/index.js lines 213-221); the approximate
lane width goes through .toFixed(2), the minimum is interpolated plainly. -/
def laneWidthViolation (approx minW : ℚ) : Violation :=
  ⟨"fahrstreifen",
   [.text "Die voraussichtliche Fahrstreifenbreite liegt mit ca. ", .num approx .fixed2,
    .text " m unter der Mindestbreite von ", .num minW .raw,
    .text " m."]⟩

/-- Bus advisory violation (src/index.js lines 223-229); the regular width
is interpolated plainly. -/
def busViolation (regular : ℚ) : Violation :=
  ⟨"fahrstreifen",
   [.text "Für Busverkehr wird in der Regel eine Fahrstreifenbreite von mindestens ",
    .num regular .raw, .text " m empfohlen."]⟩

/-- The mandatory-field violations in source push order (src/index.js lines
126-137): `!x` on a coerced number means x = 0. -/
def mandatoryErrors (data : CrossSectionInput) : List Violation :=
  (if data.gesamtbreite = 0 then [missingTotalWidth] else []) ++
  (if data.fahrstreifen = 0 then [missingLanes] else []) ++
  (if data.gehwegLinks = 0 then [missingSidewalkLeft] else []) ++
  (if data.gehwegRechts = 0 then [missingSidewalkRight] else [])

/-- cycleWidthPerSide (src/index.js lines 165-174): 0 unless the cycle
facility is requested, else the rule value matching the cycle type with
the built (baulich) facility as the fallback. -/
def cycleWidthPerSide (rules : RuleObj) (data : CrossSectionInput) : ℚ :=
  if data.radverkehrGewuenscht then
    if data.radverkehrArt = "schutzstreifen" then getRule rules .cycle_schutz_min_m
    else if data.radverkehrArt = "radfahrstreifen" then getRule rules .cycle_radfahr_min_m
    else getRule rules .cycle_baulich_min_m
  else 0

/-- cycleSidesCount (src/index.js lines 176-180). -/
def cycleSidesCount (data : CrossSectionInput) : ℚ :=
  if data.radverkehrGewuenscht then
    if data.radverkehrFuehrung = "beidseitig" then 2 else 1
  else 0

/-- cycleTotalM (src/index.js line 182). -/
def cycleTotalM (rules : RuleObj) (data : CrossSectionInput) : ℚ :=
  cycleWidthPerSide rules data * cycleSidesCount data

/-- parkingM (src/index.js lines 186-191): an unrecognized parking type
yields width 0. -/
def parkingM (rules : RuleObj) (data : CrossSectionInput) : ℚ :=
  if data.parkstaendeGewuenscht then
    if data.parkart = "parallel" then getRule rules .parking_parallel_min_m
    else if data.parkart = "schraeg" then getRule rules .parking_schraeg_min_m
    else if data.parkart = "quer" then getRule rules .parking_quer_min_m
    else 0
  else 0

/-- requiredMin (src/index.js lines 195-196): sidewalk total + cycle total
+ parking + lane count × lane_min. -/
def requiredMin (rules : RuleObj) (data : CrossSectionInput) : ℚ :=
  (data.gehwegLinks + data.gehwegRechts) + cycleTotalM rules data +
    parkingM rules data + data.fahrstreifen * getRule rules .lane_min_m

/-- widthForLanes (src/index.js line 210). -/
def widthForLanes (rules : RuleObj) (data : CrossSectionInput) : ℚ :=
  data.gesamtbreite -
    ((data.gehwegLinks + data.gehwegRechts) + cycleTotalM rules data + parkingM rules data)

/-- JS division with the division-by-zero (non-finite) outcome made
explicit as `none`. -/
def jsDiv (a b : ℚ) : Option ℚ := if b = 0 then none else some (a / b)

/-- approxLaneWidth (src/index.js line 211); only evaluated past the
mandatory-field short-circuit, where the lane count is nonzero. -/
def approxLaneWidth (rules : RuleObj) (data : CrossSectionInput) : ℚ :=
  widthForLanes rules data / data.fahrstreifen

/-- The violations accumulated past the short-circuit, in source push
order (src/index.js lines 145-229): left sidewalk, right sidewalk,
aggregate width, lane width, bus advisory. -/
def mainErrors (rules : RuleObj) (data : CrossSectionInput) : List Violation :=
  (if data.gehwegLinks < getRule rules .sidewalk_min_m then
     [sidewalkLeftViolation data.gehwegLinks (getRule rules .sidewalk_min_m)] else []) ++
  (if data.gehwegRechts < getRule rules .sidewalk_min_m then
     [sidewalkRightViolation data.gehwegRechts (getRule rules .sidewalk_min_m)] else []) ++
  (if requiredMin rules data > data.gesamtbreite then
     [aggregateViolation (requiredMin rules data) data.gesamtbreite] else []) ++
  (if approxLaneWidth rules data < getRule rules .lane_min_m then
     [laneWidthViolation (approxLaneWidth rules data) (getRule rules .lane_min_m)] else []) ++
  (if data.busverkehr ∧ approxLaneWidth rules data < getRule rules .lane_regular_m then
     [busViolation (getRule rules .lane_regular_m)] else [])

/-- The computation summary echoed on the full path (src/index.js lines
234-241), flattened. -/
structure Summary where
  sidewalkLeftM : ℚ
  sidewalkRightM : ℚ
  cycleNeeded : Bool
  cycleType : String
  cycleSides : String
  cycleTotalM : ℚ
  parkingNeeded : Bool
  parkingType : String
  parkingM : ℚ
  lanesCount : ℚ
  approxLaneWidth : ℚ
  requiredMin : ℚ
  totalWidthM : ℚ
deriving DecidableEq

/-- The validator's result (src/index.js lines 139-141 and 231-244): ok
flag, violation list and summary; `none` embeds the empty summary object
of the short-circuit return.  The rules and standardsApplied echoes are
determined by the arguments and are not repeated here. -/
structure ValidationResult where
  ok : Bool
  errors : List Violation
  summary : Option Summary
deriving DecidableEq

/-- validateDesignWithStandards (src/index.js lines 104-245): short-circuit
on missing mandatory fields, else accumulate all width violations and
assemble the summary. -/
def validateDesignWithStandards (data : CrossSectionInput)
    (standards : StandardSelection) : ValidationResult :=
  let RULES := buildRules standards
  if 0 < (mandatoryErrors data).length then
    { ok := false, errors := mandatoryErrors data, summary := none }
  else
    let errors := mainErrors RULES data
    { ok := errors.isEmpty
      errors := errors
      summary := some
        { sidewalkLeftM := data.gehwegLinks
          sidewalkRightM := data.gehwegRechts
          cycleNeeded := data.radverkehrGewuenscht
          cycleType := data.radverkehrArt
          cycleSides := data.radverkehrFuehrung
          cycleTotalM := cycleTotalM RULES data
          parkingNeeded := data.parkstaendeGewuenscht
          parkingType := data.parkart
          parkingM := parkingM RULES data
          lanesCount := data.fahrstreifen
          approxLaneWidth := approxLaneWidth RULES data
          requiredMin := requiredMin RULES data
          totalWidthM := data.gesamtbreite } }

/-- The fmt tags of the numbers embedded in a violation message, in
message order. -/
def fmtTags (v : Violation) : List NumFmt :=
  v.message.filterMap fun p =>
    match p with
    | .num _ f => some f
    | .text _ => none

/-- Does a violation message embed some plainly interpolated number? -/
def hasRawNum (v : Violation) : Bool :=
  v.message.any fun p =>
    match p with
    | .num _ NumFmt.raw => true
    | .num _ NumFmt.fixed2 => false
    | .text _ => false

/-- Every element of the mandatory-error list is one of the four
missing-field violations. -/
theorem mem_mandatoryErrors {data : CrossSectionInput} {v : Violation}
    (hv : v ∈ mandatoryErrors data) :
    v = missingTotalWidth ∨ v = missingLanes ∨
    v = missingSidewalkLeft ∨ v = missingSidewalkRight := by
  simp only [mandatoryErrors, List.mem_append] at hv
  rcases hv with ((hv | hv) | hv) | hv <;> split at hv <;> simp_all

/-- Claim C1 (amended): zero coerced total width or zero coerced lane count
short-circuits with ok=false, exactly the applicable missing-field
violations (among total width, lane count, left sidewalk, right sidewalk),
an empty summary, and no arithmetic violations. -/
theorem mandatory_short_circuit (data : CrossSectionInput)
    (std : StandardSelection)
    (h : data.gesamtbreite = 0 ∨ data.fahrstreifen = 0) :
    validateDesignWithStandards data std =
      { ok := false, errors := mandatoryErrors data, summary := none } ∧
    ∀ v ∈ (validateDesignWithStandards data std).errors,
      v = missingTotalWidth ∨ v = missingLanes ∨
      v = missingSidewalkLeft ∨ v = missingSidewalkRight := by
  have hpos : 0 < (mandatoryErrors data).length := by
    rcases h with h | h <;> simp [mandatoryErrors, h, List.length_append]
  refine ⟨by simp [validateDesignWithStandards, hpos], ?_⟩
  intro v hv
  simp only [validateDesignWithStandards, if_pos hpos] at hv
  exact mem_mandatoryErrors hv

/-- Input refuting claim C1 as stated: total width 0 and left sidewalk 0. -/
def c1Input : CrossSectionInput :=
  { gesamtbreite := 0, gehwegLinks := 0, gehwegRechts := 1, fahrstreifen := 1
    busverkehr := false, radverkehrGewuenscht := false, radverkehrArt := ""
    radverkehrFuehrung := "", parkstaendeGewuenscht := false, parkart := "" }

/-- Counterexample to claim C1 as stated: with total width 0 and left
sidewalk 0, the error list also contains the missing-left-sidewalk
violation, so it is not exactly the total-width/lane-count violations. -/
theorem c1_counterexample :
    c1Input.gesamtbreite = 0 ∧
    missingSidewalkLeft ∈ (validateDesignWithStandards c1Input selNone).errors ∧
    (validateDesignWithStandards c1Input selNone).errors ≠ [missingTotalWidth] := by
  refine ⟨rfl, ?_, ?_⟩ <;>
    norm_num [validateDesignWithStandards, mandatoryErrors, c1Input,
      missingTotalWidth, missingSidewalkLeft]

/-- Witness for C1 (amended) at the concrete input. -/
theorem mandatory_short_circuit_witness :
    validateDesignWithStandards c1Input selNone =
      { ok := false, errors := mandatoryErrors c1Input, summary := none } :=
  (mandatory_short_circuit c1Input selNone (Or.inl rfl)).1

/-- Claim C2 (amended): past the mandatory-field check, if both sidewalks
meet sidewalk_min, the aggregate required width fits the total width, the
approximate lane width meets lane_min, and either no bus traffic is flagged
or the approximate lane width also meets lane_regular, then the design is
accepted with an empty violation list. -/
theorem validate_accepts (data : CrossSectionInput) (std : StandardSelection)
    (h0 : mandatoryErrors data = [])
    (h1 : getRule (buildRules std) RuleKey.sidewalk_min_m ≤ data.gehwegLinks)
    (h2 : getRule (buildRules std) RuleKey.sidewalk_min_m ≤ data.gehwegRechts)
    (h3 : requiredMin (buildRules std) data ≤ data.gesamtbreite)
    (h4 : getRule (buildRules std) RuleKey.lane_min_m ≤
            approxLaneWidth (buildRules std) data)
    (h5 : data.busverkehr = false ∨
            getRule (buildRules std) RuleKey.lane_regular_m ≤
              approxLaneWidth (buildRules std) data) :
    (validateDesignWithStandards data std).ok = true ∧
    (validateDesignWithStandards data std).errors = [] := by
  have hb : ¬(data.busverkehr = true ∧
      approxLaneWidth (buildRules std) data <
        getRule (buildRules std) RuleKey.lane_regular_m) := by
    rcases h5 with h5 | h5
    · rintro ⟨hbt, _⟩
      rw [h5] at hbt
      exact Bool.false_ne_true hbt
    · rintro ⟨_, hlt⟩
      exact absurd hlt (not_lt.mpr h5)
  have hmain : mainErrors (buildRules std) data = [] := by
    simp [mainErrors, not_lt.mpr h1, not_lt.mpr h2, not_lt.mpr h3,
      not_lt.mpr h4, hb]
  constructor <;> simp [validateDesignWithStandards, h0, hmain]

/-- Input refuting claim C2 as stated: everything fits and the approximate
lane width meets lane_min, yet sidewalk and bus-advisory violations fire. -/
def c2Input : CrossSectionInput :=
  { gesamtbreite := 8, gehwegLinks := 1, gehwegRechts := 1, fahrstreifen := 2
    busverkehr := true, radverkehrGewuenscht := false, radverkehrArt := ""
    radverkehrFuehrung := "", parkstaendeGewuenscht := false, parkart := "" }

/-- Counterexample to claim C2 as stated: the input passes the
mandatory-field check, the aggregate required width is at most the total
width and the approximate lane width is at least lane_min, yet the design
is rejected (narrow sidewalks and the bus advisory). -/
theorem c2_counterexample :
    mandatoryErrors c2Input = [] ∧
    requiredMin (buildRules selNone) c2Input ≤ c2Input.gesamtbreite ∧
    getRule (buildRules selNone) RuleKey.lane_min_m ≤
      approxLaneWidth (buildRules selNone) c2Input ∧
    (validateDesignWithStandards c2Input selNone).ok = false := by
  refine ⟨?_, ?_, ?_, ?_⟩ <;>
    simp [validateDesignWithStandards, mandatoryErrors, mainErrors,
      buildRules, spread, setRule, getRule, BASE_RULES, RAST_RULES, ERA_RULES,
      EFA_RULES, STVO_RULES, cycleTotalM, cycleWidthPerSide, cycleSidesCount,
      parkingM, requiredMin, approxLaneWidth, widthForLanes, c2Input, selNone] <;>
    norm_num

/-- The spec's own worked example geometry. -/
def c2ExampleInput : CrossSectionInput :=
  { gesamtbreite := 10, gehwegLinks := 2, gehwegRechts := 2, fahrstreifen := 2
    busverkehr := false, radverkehrGewuenscht := false, radverkehrArt := ""
    radverkehrFuehrung := "", parkstaendeGewuenscht := false, parkart := "" }

/-- Witness for C2 (amended) at the spec's worked example. -/
theorem validate_accepts_witness :
    (validateDesignWithStandards c2ExampleInput selNone).ok = true ∧
    (validateDesignWithStandards c2ExampleInput selNone).errors = [] :=
  validate_accepts c2ExampleInput selNone
    (by norm_num [mandatoryErrors, c2ExampleInput])
    (by simp [getRule, buildRules, spread, setRule, BASE_RULES, RAST_RULES,
      ERA_RULES, EFA_RULES, STVO_RULES, c2ExampleInput, selNone]; norm_num)
    (by simp [getRule, buildRules, spread, setRule, BASE_RULES, RAST_RULES,
      ERA_RULES, EFA_RULES, STVO_RULES, c2ExampleInput, selNone]; norm_num)
    (by simp [requiredMin, cycleTotalM, cycleWidthPerSide, cycleSidesCount,
      parkingM, getRule, buildRules, spread, setRule, BASE_RULES, RAST_RULES,
      ERA_RULES, EFA_RULES, STVO_RULES, c2ExampleInput, selNone]; norm_num)
    (by
      simp [approxLaneWidth, widthForLanes, cycleTotalM, cycleWidthPerSide,
        cycleSidesCount, parkingM, getRule, buildRules, spread, setRule,
        BASE_RULES, RAST_RULES, ERA_RULES, EFA_RULES, STVO_RULES,
        c2ExampleInput, selNone]
      norm_num)
    (Or.inl rfl)

/-- Claim C6: past the mandatory-field check, the cycle total echoed in the
summary is the per-side rule width selected by the cycle type (Schutzstreifen,
Radfahrstreifen, else the built facility) times 2 for two-sided guidance and
1 otherwise, and 0 when no cycle facility is requested. -/
theorem cycle_total_formula (data : CrossSectionInput) (std : StandardSelection)
    (h : mandatoryErrors data = []) :
    Option.map Summary.cycleTotalM (validateDesignWithStandards data std).summary =
      some (if data.radverkehrGewuenscht then
              (if data.radverkehrArt = "schutzstreifen" then
                 getRule (buildRules std) RuleKey.cycle_schutz_min_m
               else if data.radverkehrArt = "radfahrstreifen" then
                 getRule (buildRules std) RuleKey.cycle_radfahr_min_m
               else
                 getRule (buildRules std) RuleKey.cycle_baulich_min_m) *
              (if data.radverkehrFuehrung = "beidseitig" then 2 else 1)
            else 0) := by
  simp only [validateDesignWithStandards, h, List.length_nil, lt_self_iff_false,
    if_false]
  simp only [cycleTotalM, cycleWidthPerSide, cycleSidesCount]
  split_ifs <;> simp

/-- Concrete geometry with a two-sided Radfahrstreifen request. -/
def c6Input : CrossSectionInput :=
  { gesamtbreite := 10, gehwegLinks := 2, gehwegRechts := 2, fahrstreifen := 2
    busverkehr := false, radverkehrGewuenscht := true
    radverkehrArt := "radfahrstreifen", radverkehrFuehrung := "beidseitig"
    parkstaendeGewuenscht := false, parkart := "" }

/-- Witness for C6 at the concrete two-sided Radfahrstreifen geometry. -/
theorem cycle_total_formula_witness :
    Option.map Summary.cycleTotalM (validateDesignWithStandards c6Input selNone).summary =
      some (if c6Input.radverkehrGewuenscht then
              (if c6Input.radverkehrArt = "schutzstreifen" then
                 getRule (buildRules selNone) RuleKey.cycle_schutz_min_m
               else if c6Input.radverkehrArt = "radfahrstreifen" then
                 getRule (buildRules selNone) RuleKey.cycle_radfahr_min_m
               else
                 getRule (buildRules selNone) RuleKey.cycle_baulich_min_m) *
              (if c6Input.radverkehrFuehrung = "beidseitig" then 2 else 1)
            else 0) :=
  cycle_total_formula c6Input selNone (by norm_num [mandatoryErrors, c6Input])

/-- Claim C7: past the mandatory-field check, a sidewalk violation for a
side is reported if and only if that side's width is strictly below
sidewalk_min; a width exactly equal to the minimum is accepted. -/
theorem sidewalk_violation_iff (data : CrossSectionInput)
    (std : StandardSelection) (h : mandatoryErrors data = []) :
    ((∃ v ∈ (validateDesignWithStandards data std).errors,
        v.field = "gehwegLinks") ↔
      data.gehwegLinks < getRule (buildRules std) RuleKey.sidewalk_min_m) ∧
    ((∃ v ∈ (validateDesignWithStandards data std).errors,
        v.field = "gehwegRechts") ↔
      data.gehwegRechts < getRule (buildRules std) RuleKey.sidewalk_min_m) := by
  simp only [validateDesignWithStandards, h, List.length_nil, lt_self_iff_false,
    if_false]
  constructor
  · constructor
    · rintro ⟨v, hv, hf⟩
      simp only [mainErrors, List.mem_append] at hv
      rcases hv with ((((hv | hv) | hv) | hv) | hv) <;> split at hv <;>
        simp_all [sidewalkLeftViolation, sidewalkRightViolation,
          aggregateViolation, laneWidthViolation, busViolation]
    · intro hlt
      exact ⟨sidewalkLeftViolation data.gehwegLinks
          (getRule (buildRules std) RuleKey.sidewalk_min_m),
        by simp [mainErrors, hlt], rfl⟩
  · constructor
    · rintro ⟨v, hv, hf⟩
      simp only [mainErrors, List.mem_append] at hv
      rcases hv with ((((hv | hv) | hv) | hv) | hv) <;> split at hv <;>
        simp_all [sidewalkLeftViolation, sidewalkRightViolation,
          aggregateViolation, laneWidthViolation, busViolation]
    · intro hlt
      exact ⟨sidewalkRightViolation data.gehwegRechts
          (getRule (buildRules std) RuleKey.sidewalk_min_m),
        by simp [mainErrors, hlt], rfl⟩

/-- Concrete boundary geometry: the left sidewalk is exactly the baseline
sidewalk minimum of 1.5 m. -/
def c7Input : CrossSectionInput :=
  { gesamtbreite := 10, gehwegLinks := 1.5, gehwegRechts := 2, fahrstreifen := 2
    busverkehr := false, radverkehrGewuenscht := false, radverkehrArt := ""
    radverkehrFuehrung := "", parkstaendeGewuenscht := false, parkart := "" }

/-- Witness for C7: a left sidewalk exactly at the minimum yields no left
sidewalk violation. -/
theorem sidewalk_violation_iff_witness :
    ¬ ∃ v ∈ (validateDesignWithStandards c7Input selNone).errors,
        v.field = "gehwegLinks" := by
  rw [(sidewalk_violation_iff c7Input selNone
    (by norm_num [mandatoryErrors, c7Input])).1]
  simp [getRule, buildRules, spread, setRule, BASE_RULES, RAST_RULES,
    ERA_RULES, EFA_RULES, STVO_RULES, c7Input, selNone]

/-- Claim C8 (amended): the aggregate-width violation renders both its
figures with .toFixed(2) and the lane violation so renders the approximate
lane width, but the sidewalk violations interpolate both their figures
plainly, and the lane minimum and the bus regular width are interpolated
plainly; mandatory-field messages embed no numbers. -/
theorem violation_format_policy (data : CrossSectionInput)
    (std : StandardSelection) :
    ∀ v ∈ (validateDesignWithStandards data std).errors,
      (v.field = "gesamtbreite" ∧
        (fmtTags v = [] ∨ fmtTags v = [NumFmt.fixed2, NumFmt.fixed2])) ∨
      (v.field = "fahrstreifen" ∧
        (fmtTags v = [] ∨ fmtTags v = [NumFmt.fixed2, NumFmt.raw] ∨
          fmtTags v = [NumFmt.raw])) ∨
      ((v.field = "gehwegLinks" ∨ v.field = "gehwegRechts") ∧
        (fmtTags v = [] ∨ fmtTags v = [NumFmt.raw, NumFmt.raw])) := by
  intro v hv
  by_cases h0 : 0 < (mandatoryErrors data).length
  · simp only [validateDesignWithStandards, if_pos h0] at hv
    simp only [mandatoryErrors, List.mem_append] at hv
    rcases hv with ((hv | hv) | hv) | hv <;> split at hv <;>
      simp_all [missingTotalWidth, missingLanes, missingSidewalkLeft,
        missingSidewalkRight, fmtTags]
  · simp only [validateDesignWithStandards, if_neg h0] at hv
    simp only [mainErrors, List.mem_append] at hv
    rcases hv with ((((hv | hv) | hv) | hv) | hv) <;> split at hv <;>
      simp_all [sidewalkLeftViolation, sidewalkRightViolation,
        aggregateViolation, laneWidthViolation, busViolation, fmtTags]

/-- Geometry whose left sidewalk is 1 m, triggering a sidewalk violation
with plainly interpolated figures. -/
def c8Input : CrossSectionInput :=
  { gesamtbreite := 10, gehwegLinks := 1, gehwegRechts := 2, fahrstreifen := 2
    busverkehr := false, radverkehrGewuenscht := false, radverkehrArt := ""
    radverkehrFuehrung := "", parkstaendeGewuenscht := false, parkart := "" }

/-- Counterexample to claim C8 as stated: this rejected design has a
violation message embedding a number that is not rendered to two decimal
places (the left-sidewalk message interpolates its figures plainly). -/
theorem c8_counterexample :
    sidewalkLeftViolation c8Input.gehwegLinks
        (getRule (buildRules selNone) RuleKey.sidewalk_min_m) ∈
      (validateDesignWithStandards c8Input selNone).errors ∧
    hasRawNum (sidewalkLeftViolation c8Input.gehwegLinks
      (getRule (buildRules selNone) RuleKey.sidewalk_min_m)) = true := by
  constructor
  · simp [validateDesignWithStandards, mandatoryErrors, mainErrors,
      buildRules, spread, setRule, getRule, BASE_RULES, RAST_RULES, ERA_RULES,
      EFA_RULES, STVO_RULES, cycleTotalM, cycleWidthPerSide, cycleSidesCount,
      parkingM, requiredMin, approxLaneWidth, widthForLanes, c8Input, selNone]
    norm_num
  · rfl

/-- Witness for C8 (amended) at the c8 geometry's left-sidewalk violation. -/
theorem violation_format_policy_witness :
    ((sidewalkLeftViolation c8Input.gehwegLinks
        (getRule (buildRules selNone) RuleKey.sidewalk_min_m)).field =
          "gesamtbreite" ∧
      (fmtTags (sidewalkLeftViolation c8Input.gehwegLinks
          (getRule (buildRules selNone) RuleKey.sidewalk_min_m)) = [] ∨
        fmtTags (sidewalkLeftViolation c8Input.gehwegLinks
          (getRule (buildRules selNone) RuleKey.sidewalk_min_m)) =
            [NumFmt.fixed2, NumFmt.fixed2])) ∨
    ((sidewalkLeftViolation c8Input.gehwegLinks
        (getRule (buildRules selNone) RuleKey.sidewalk_min_m)).field =
          "fahrstreifen" ∧
      (fmtTags (sidewalkLeftViolation c8Input.gehwegLinks
          (getRule (buildRules selNone) RuleKey.sidewalk_min_m)) = [] ∨
        fmtTags (sidewalkLeftViolation c8Input.gehwegLinks
          (getRule (buildRules selNone) RuleKey.sidewalk_min_m)) =
            [NumFmt.fixed2, NumFmt.raw] ∨
        fmtTags (sidewalkLeftViolation c8Input.gehwegLinks
          (getRule (buildRules selNone) RuleKey.sidewalk_min_m)) =
            [NumFmt.raw])) ∨
    (((sidewalkLeftViolation c8Input.gehwegLinks
        (getRule (buildRules selNone) RuleKey.sidewalk_min_m)).field =
          "gehwegLinks" ∨
      (sidewalkLeftViolation c8Input.gehwegLinks
        (getRule (buildRules selNone) RuleKey.sidewalk_min_m)).field =
          "gehwegRechts") ∧
      (fmtTags (sidewalkLeftViolation c8Input.gehwegLinks
          (getRule (buildRules selNone) RuleKey.sidewalk_min_m)) = [] ∨
        fmtTags (sidewalkLeftViolation c8Input.gehwegLinks
          (getRule (buildRules selNone) RuleKey.sidewalk_min_m)) =
            [NumFmt.raw, NumFmt.raw])) :=
  violation_format_policy c8Input selNone
    (sidewalkLeftViolation c8Input.gehwegLinks
      (getRule (buildRules selNone) RuleKey.sidewalk_min_m))
    (by
      simp [validateDesignWithStandards, mandatoryErrors, mainErrors,
        buildRules, spread, setRule, getRule, BASE_RULES, RAST_RULES, ERA_RULES,
        EFA_RULES, STVO_RULES, cycleTotalM, cycleWidthPerSide, cycleSidesCount,
        parkingM, requiredMin, approxLaneWidth, widthForLanes, c8Input, selNone]
      norm_num)

/-- Claim C10: past the mandatory-field check the lane count is nonzero, so
the approximate per-lane division is well-defined (its division-by-zero
outcome is unreachable). -/
theorem lane_division_welldefined (data : CrossSectionInput)
    (std : StandardSelection) (h : mandatoryErrors data = []) :
    data.fahrstreifen ≠ 0 ∧
    jsDiv (widthForLanes (buildRules std) data) data.fahrstreifen =
      some (approxLaneWidth (buildRules std) data) := by
  have hl : ¬ data.fahrstreifen = 0 := by
    intro h0
    rw [mandatoryErrors] at h
    simp [h0] at h
  exact ⟨hl, by simp [jsDiv, hl, approxLaneWidth]⟩

/-- Concrete geometry for the C10 witness. -/
def c10Input : CrossSectionInput :=
  { gesamtbreite := 9, gehwegLinks := 2, gehwegRechts := 2, fahrstreifen := 3
    busverkehr := false, radverkehrGewuenscht := false, radverkehrArt := ""
    radverkehrFuehrung := "", parkstaendeGewuenscht := false, parkart := "" }

/-- Witness for C10 at a concrete geometry past the mandatory check. -/
theorem lane_division_welldefined_witness :
    c10Input.fahrstreifen ≠ 0 ∧
    jsDiv (widthForLanes (buildRules selNone) c10Input) c10Input.fahrstreifen =
      some (approxLaneWidth (buildRules selNone) c10Input) :=
  lane_division_welldefined c10Input selNone
    (by norm_num [mandatoryErrors, c10Input])

end Verkehrsplanung
